import Mathlib

/-!
Shallow embedding of the workout progress engine of
`backend/server.py` (logical thinking workouts API): data model,
scoring, attempt lifecycle and progress aggregation, together with
theorems checking the specification's claims about them.

Modelling conventions:
* Mongo collections become Lean lists; `find_one` is the first list
  element matching the query, `insert_one` appends, `update_one`
  rewrites the first element matching the query.
* JSON payloads (`submission`, `solution`, ...) become the inductive
  `JValue`; Python `dict.get(k)` with its `None` default becomes a
  lookup defaulting to `JValue.null`; JSON numbers are modelled as
  integers.
* Python floats become exact rationals (`Rat`); `int(x)` truncation
  toward zero becomes `pyInt`.
* `datetime` values become epoch seconds (`Nat`); the elapsed-minute
  computation `(utcnow - started_at).total_seconds() / 60` becomes a
  rational division by 60.
* HTTP error responses become the `ApiError` type
  (`HTTPException(403/404)`, FastAPI 422 body validation, and an
  uncaught Python exception as `serverError`).
-/

namespace TecPlatform

/-- `UserRole` enum of `server.py`. -/
inductive UserRole where
  | student
  | teacher
  | admin
deriving DecidableEq, Repr

/-- `WorkoutType` enum of `server.py`. -/
inductive WorkoutType where
  | pattern_recognition
  | logical_sequences
  | puzzle_solving
  | reasoning_chains
  | critical_thinking
  | problem_decomposition
deriving DecidableEq, Repr

/-- `WorkoutDifficulty` enum of `server.py`. -/
inductive WorkoutDifficulty where
  | beginner
  | intermediate
  | advanced
  | expert
deriving DecidableEq, Repr

/-- `LearningLevel` enum of `server.py`. -/
inductive LearningLevel where
  | foundation
  | development
  | mastery
deriving DecidableEq, Repr

/-- `AgeGroup` enum of `server.py`. -/
inductive AgeGroup where
  | foundation
  | development
  | mastery
deriving DecidableEq, Repr

/-- JSON-like payload values (submission bodies, workout solutions).
JSON numbers are modelled as integers; objects as association lists. -/
inductive JValue where
  | null
  | bool (b : Bool)
  | num (n : Int)
  | str (s : String)
  | arr (elems : List JValue)
  | obj (fields : List (String × JValue))
deriving Repr

mutual

/-- Structural equality test on payload values (Python `==`). -/
def JValue.beq : JValue → JValue → Bool
  | .null, .null => true
  | .bool a, .bool b => a == b
  | .num a, .num b => a == b
  | .str a, .str b => a == b
  | .arr a, .arr b => JValue.beqList a b
  | .obj a, .obj b => JValue.beqObj a b
  | _, _ => false

/-- Equality test on payload arrays. -/
def JValue.beqList : List JValue → List JValue → Bool
  | [], [] => true
  | x :: xs, y :: ys => JValue.beq x y && JValue.beqList xs ys
  | _, _ => false

/-- Equality test on payload objects. -/
def JValue.beqObj : List (String × JValue) → List (String × JValue) → Bool
  | [], [] => true
  | (k, v) :: xs, (l, w) :: ys => k == l && JValue.beq v w && JValue.beqObj xs ys
  | _, _ => false

end

mutual

theorem JValue.beq_refl : ∀ a : JValue, JValue.beq a a = true
  | .null => by simp [JValue.beq]
  | .bool b => by simp [JValue.beq]
  | .num n => by simp [JValue.beq]
  | .str s => by simp [JValue.beq]
  | .arr xs => by simp [JValue.beq, JValue.beqList_refl xs]
  | .obj fs => by simp [JValue.beq, JValue.beqObj_refl fs]

theorem JValue.beqList_refl : ∀ xs : List JValue, JValue.beqList xs xs = true
  | [] => by simp [JValue.beqList]
  | x :: xs => by simp [JValue.beqList, JValue.beq_refl x, JValue.beqList_refl xs]

theorem JValue.beqObj_refl : ∀ fs : List (String × JValue), JValue.beqObj fs fs = true
  | [] => by simp [JValue.beqObj]
  | (k, v) :: fs => by simp [JValue.beqObj, JValue.beq_refl v, JValue.beqObj_refl fs]

end

mutual

theorem JValue.eq_of_beq : ∀ a b : JValue, JValue.beq a b = true → a = b
  | .null, b, h => by cases b <;> simp_all [JValue.beq]
  | .bool a, b, h => by cases b <;> simp_all [JValue.beq]
  | .num a, b, h => by cases b <;> simp_all [JValue.beq]
  | .str a, b, h => by cases b <;> simp_all [JValue.beq]
  | .arr xs, .arr ys, h =>
      congrArg JValue.arr (JValue.eqList_of_beq xs ys (by simpa [JValue.beq] using h))
  | .arr xs, .null, h => by simp [JValue.beq] at h
  | .arr xs, .bool b, h => by simp [JValue.beq] at h
  | .arr xs, .num n, h => by simp [JValue.beq] at h
  | .arr xs, .str s, h => by simp [JValue.beq] at h
  | .arr xs, .obj fs, h => by simp [JValue.beq] at h
  | .obj fs, .obj gs, h =>
      congrArg JValue.obj (JValue.eqObj_of_beq fs gs (by simpa [JValue.beq] using h))
  | .obj fs, .null, h => by simp [JValue.beq] at h
  | .obj fs, .bool b, h => by simp [JValue.beq] at h
  | .obj fs, .num n, h => by simp [JValue.beq] at h
  | .obj fs, .str s, h => by simp [JValue.beq] at h
  | .obj fs, .arr xs, h => by simp [JValue.beq] at h

theorem JValue.eqList_of_beq : ∀ xs ys : List JValue, JValue.beqList xs ys = true → xs = ys
  | [], [], _ => rfl
  | [], _ :: _, h => by simp [JValue.beqList] at h
  | _ :: _, [], h => by simp [JValue.beqList] at h
  | x :: xs, y :: ys, h => by
      simp only [JValue.beqList, Bool.and_eq_true] at h
      rw [JValue.eq_of_beq x y h.1, JValue.eqList_of_beq xs ys h.2]

theorem JValue.eqObj_of_beq :
    ∀ fs gs : List (String × JValue), JValue.beqObj fs gs = true → fs = gs
  | [], [], _ => rfl
  | [], _ :: _, h => by simp [JValue.beqObj] at h
  | _ :: _, [], h => by simp [JValue.beqObj] at h
  | (k, v) :: fs, (l, w) :: gs, h => by
      simp only [JValue.beqObj, Bool.and_eq_true, beq_iff_eq] at h
      rw [h.1.1, JValue.eq_of_beq v w h.1.2, JValue.eqObj_of_beq fs gs h.2]

end

theorem JValue.beq_iff (a b : JValue) : JValue.beq a b = true ↔ a = b :=
  ⟨JValue.eq_of_beq a b, fun h => h ▸ JValue.beq_refl a⟩

instance : DecidableEq JValue :=
  fun a b => decidable_of_iff (JValue.beq a b = true) (JValue.beq_iff a b)

/-- First value bound to `key` in an association list (Python dicts have
unique keys, so first = only). -/
def lookupField (fields : List (String × JValue)) (key : String) : Option JValue :=
  match fields with
  | [] => none
  | (k, v) :: rest => if k = key then some v else lookupField rest key

/-- Python `d.get(key)`: the bound value, or `None` (modelled `null`)
when the key is absent. -/
def dictGet (fields : List (String × JValue)) (key : String) : JValue :=
  (lookupField fields key).getD .null

/-- Python `int(x)` on a rational: truncation toward zero (floor for
nonnegative values, ceiling — written `-⌊-r⌋` — for negative ones). -/
def pyInt (r : Rat) : Int :=
  if 0 ≤ r then ⌊r⌋ else -⌊-r⌋

/-- Correctness check of `submit_workout_attempt` (server.py:1054-1063):
if both the student answer and the stored solution are dicts, compare the
values under their `answer` keys (Python `.get`, defaulting to `None`);
otherwise compare the payloads directly. -/
def gradeAnswer (studentAnswer solution : JValue) : Bool :=
  match studentAnswer, solution with
  | .obj sa, .obj sol => decide (dictGet sa "answer" = dictGet sol "answer")
  | sa, sol => decide (sa = sol)

/-- Score computation of `submit_workout_attempt` (server.py:1065-1067):
`base_score = 100 if is_correct else 0`, `hint_penalty = hints_used * 10`,
`score = max(0, base_score - hint_penalty)`. -/
def computeScore (isCorrect : Bool) (hintsUsed : Int) : Int :=
  max 0 ((if isCorrect then 100 else 0) - hintsUsed * 10)

/-- `LogicalWorkout` document (the fields the workout engine reads).
`solution` is optional at the document level: the endpoints guard with
`"solution" in workout`. -/
structure Workout where
  id : String
  workout_type : WorkoutType
  difficulty : WorkoutDifficulty
  learning_level : LearningLevel
  age_group : AgeGroup
  solution : Option JValue
  is_active : Bool
deriving DecidableEq, Repr

/-- `WorkoutAttempt` document. -/
structure Attempt where
  id : String
  student_id : String
  workout_id : String
  started_at : Nat
  completed_at : Option Nat
  student_answer : Option JValue
  is_correct : Option Bool
  time_spent_minutes : Int
  hints_used : Int
  attempts_count : Nat
  score : Option Int
deriving DecidableEq, Repr

/-- `WorkoutProgress` document. The update path writes raw Python
floats, so the numeric statistics are modelled as exact rationals. -/
structure ProgressRecord where
  id : String
  student_id : String
  workout_type : WorkoutType
  difficulty : WorkoutDifficulty
  learning_level : LearningLevel
  total_attempts : Nat
  successful_attempts : Nat
  average_score : Rat
  average_time_minutes : Rat
  improvement_rate : Rat
  last_attempt : Option Nat
  mastery_level : Rat
deriving DecidableEq, Repr

/-- The three Mongo collections the workout engine touches. -/
structure DB where
  workouts : List Workout
  attempts : List Attempt
  progress : List ProgressRecord
deriving DecidableEq, Repr

/-- Client-visible failure modes of the workout endpoints. -/
inductive ApiError where
  | forbidden (detail : String)
  | notFound (detail : String)
  | validationFailure
  | serverError
deriving DecidableEq, Repr

/-- Mongo `update_one`: rewrite the first element matching the query. -/
def updateFirst (query : α → Bool) (set : α → α) : List α → List α
  | [] => []
  | x :: xs => if query x then set x :: xs else x :: updateFirst query set xs

/-- `db.workout_attempts.find_one({"id": aid, "student_id": sid,
"completed_at": None})` (server.py:1035-1039). -/
def findOpenAttempt (db : DB) (attemptId studentId : String) : Option Attempt :=
  db.attempts.find? fun a =>
    decide (a.id = attemptId ∧ a.student_id = studentId ∧ a.completed_at = none)

/-- `db.logical_workouts.find_one({"id": wid})` (server.py:1044). -/
def findWorkoutById (db : DB) (workoutId : String) : Option Workout :=
  db.workouts.find? fun w => decide (w.id = workoutId)

/-- `db.logical_workouts.find_one({"id": wid, "is_active": True})`
(server.py:944 and 998). -/
def findActiveWorkout (db : DB) (workoutId : String) : Option Workout :=
  db.workouts.find? fun w => decide (w.id = workoutId ∧ w.is_active = true)

/-- `db.workout_progress.find_one({...})` by student and workout key
(server.py:1115-1120). -/
def findProgress (db : DB) (studentId : String) (t : WorkoutType)
    (d : WorkoutDifficulty) (lvl : LearningLevel) : Option ProgressRecord :=
  db.progress.find? fun p =>
    decide (p.student_id = studentId ∧ p.workout_type = t ∧
      p.difficulty = d ∧ p.learning_level = lvl)

/-- Update path of `update_workout_progress` (server.py:1138-1160): the
`$set` document applied to the existing record. -/
def applyProgressUpdate (p : ProgressRecord) (score : Rat) (timeSpent : Rat)
    (isCorrect : Bool) (now : Nat) : ProgressRecord :=
  let newTotal : Nat := p.total_attempts + 1
  let newSuccessful : Nat := p.successful_attempts + (if isCorrect then 1 else 0)
  let newAvgScore : Rat := (p.average_score * p.total_attempts + score) / newTotal
  let newAvgTime : Rat := (p.average_time_minutes * p.total_attempts + timeSpent) / newTotal
  { p with
    total_attempts := newTotal
    successful_attempts := newSuccessful
    average_score := newAvgScore
    average_time_minutes := newAvgTime
    improvement_rate := max 0 (newAvgScore - p.average_score)
    last_attempt := some now
    mastery_level := min newAvgScore 100 }

/-- Create path of `update_workout_progress` (server.py:1122-1136): the
freshly inserted `WorkoutProgress` document. `improvement_rate` is not
passed, so it keeps the model default `0.0`. -/
def newProgressRecord (freshId studentId : String) (w : Workout) (score : Int)
    (timeSpent : Rat) (isCorrect : Bool) (now : Nat) : ProgressRecord :=
  { id := freshId
    student_id := studentId
    workout_type := w.workout_type
    difficulty := w.difficulty
    learning_level := w.learning_level
    total_attempts := 1
    successful_attempts := if isCorrect then 1 else 0
    average_score := (score : Rat)
    average_time_minutes := timeSpent
    improvement_rate := 0
    last_attempt := some now
    mastery_level := ((min score 100 : Int) : Rat) }

/-- `update_workout_progress` (server.py:1113-1160). -/
def updateWorkoutProgress (db : DB) (studentId : String) (w : Workout)
    (score : Int) (timeSpent : Rat) (isCorrect : Bool) (now : Nat)
    (freshId : String) : DB :=
  match findProgress db studentId w.workout_type w.difficulty w.learning_level with
  | none =>
      let inserted := db.progress ++
        [newProgressRecord freshId studentId w score timeSpent isCorrect now]
      { db with progress := inserted }
  | some p =>
      let rewritten := updateFirst (fun r => decide (r.id = p.id))
        (fun r => applyProgressUpdate r (score : Rat) timeSpent isCorrect now)
        db.progress
      { db with progress := rewritten }

/-- Response body of `submit_workout_attempt` (server.py:1105-1111). -/
structure SubmitResult where
  score : Int
  is_correct : Bool
  time_spent_minutes : Int
  solution : Option JValue
  feedback : String
deriving DecidableEq, Repr

/-- The `$set` document closing an attempt (server.py:1074-1081). -/
def closeAttempt (a : Attempt) (now : Nat) (studentAnswer : JValue)
    (isCorrect : Bool) (timeSpentMin : Int) (hints : Int) (score : Int) : Attempt :=
  { a with
    completed_at := some now
    student_answer := some studentAnswer
    is_correct := some isCorrect
    time_spent_minutes := timeSpentMin
    hints_used := hints
    score := some score }

/-- Core of `submit_workout_attempt` (server.py:1024-1111), after the
request body has been parsed: role guard, open-attempt lookup, workout
lookup, grading, attempt closure, progress aggregation, response.
`hintsUsed = none` marks a non-numeric `hints_used` value, on which the
Python arithmetic raises (modelled `serverError`), as does a workout
document without a `solution` key (`workout["solution"]` raises). -/
def submitAttemptCore (db : DB) (studentId : String) (role : UserRole)
    (attemptId : String) (studentAnswer : JValue) (hintsUsed : Option Int)
    (now : Nat) (freshId : String) : Except ApiError (SubmitResult × DB) :=
  if role ≠ .student then
    .error (.forbidden "Only students can submit attempts")
  else
    match findOpenAttempt db attemptId studentId with
    | none => .error (.notFound "Active attempt not found")
    | some attempt =>
      match findWorkoutById db attempt.workout_id with
      | none => .error (.notFound "Workout not found")
      | some w =>
        match w.solution with
        | none => .error .serverError
        | some sol =>
          match hintsUsed with
          | none => .error .serverError
          | some hints =>
            let isCorrect := gradeAnswer studentAnswer sol
            let score := computeScore isCorrect hints
            let timeSpent : Rat := ((now : Rat) - (attempt.started_at : Rat)) / 60
            let newAttempts := updateFirst (fun a => decide (a.id = attemptId))
              (fun a => closeAttempt a now studentAnswer isCorrect (pyInt timeSpent) hints score)
              db.attempts
            let db1 : DB := { db with attempts := newAttempts }
            let db2 := updateWorkoutProgress db1 studentId w score timeSpent isCorrect now freshId
            let res : SubmitResult :=
              { score := score
                is_correct := isCorrect
                time_spent_minutes := pyInt timeSpent
                solution := if isCorrect then none else some sol
                feedback := if isCorrect then "Excellent work!"
                  else "Keep practicing! Check the solution to understand better." }
            .ok (res, db2)

/-- `submission.get("answer", {})` (server.py:1049). -/
def extractAnswer (fields : List (String × JValue)) : JValue :=
  (lookupField fields "answer").getD (.obj [])

/-- `submission.get("hints_used", 0)` (server.py:1050), keeping only the
values the later arithmetic accepts: integers (and Python booleans,
which are integers); any other present value makes the scoring
arithmetic raise, marked `none`. -/
def extractHints (fields : List (String × JValue)) : Option Int :=
  match lookupField fields "hints_used" with
  | Option.none => some 0
  | some (.num n) => some n
  | some (.bool b) => some (if b then 1 else 0)
  | some _ => none

/-- `submit_workout_attempt` endpoint including FastAPI body validation:
the `submission: dict` parameter rejects any non-object JSON body with a
422 validation error before the handler runs. -/
def submitAttemptEndpoint (db : DB) (studentId : String) (role : UserRole)
    (attemptId : String) (body : JValue) (now : Nat) (freshId : String) :
    Except ApiError (SubmitResult × DB) :=
  match body with
  | .obj fields =>
      submitAttemptCore db studentId role attemptId (extractAnswer fields)
        (extractHints fields) now freshId
  | _ => .error .validationFailure

/-- Workout document as returned to a client (after the handlers'
`del workout["solution"]` / `del workout["_id"]` post-processing). -/
structure WorkoutView where
  id : String
  workout_type : WorkoutType
  difficulty : WorkoutDifficulty
  learning_level : LearningLevel
  age_group : AgeGroup
  solution : Option JValue
  is_active : Bool
deriving DecidableEq, Repr

/-- View of a workout with the solution removed exactly when the caller
is a student (server.py:948-950). -/
def workoutViewFor (w : Workout) (role : UserRole) : WorkoutView :=
  { id := w.id
    workout_type := w.workout_type
    difficulty := w.difficulty
    learning_level := w.learning_level
    age_group := w.age_group
    solution := if role = .student then none else w.solution
    is_active := w.is_active }

/-- `get_workout` (server.py:941-956). -/
def getWorkout (db : DB) (workoutId : String) (role : UserRole) :
    Except ApiError WorkoutView :=
  match findActiveWorkout db workoutId with
  | none => .error (.notFound "Workout not found")
  | some w => .ok (workoutViewFor w role)

/-- An optional query filter matches when absent or equal. -/
def matchesFilter [DecidableEq α] (filt : Option α) (v : α) : Bool :=
  match filt with
  | none => true
  | some x => decide (v = x)

/-- Workout summary of `get_workouts`: the solution is deleted for every
caller. -/
def workoutSummary (w : Workout) : WorkoutView :=
  { workoutViewFor w .teacher with solution := none }

/-- `get_workouts` (server.py:910-939): active workouts matching the
optional filters, first 100, with the solution deleted for every caller. -/
def getWorkouts (db : DB) (levelF : Option LearningLevel)
    (typeF : Option WorkoutType) (diffF : Option WorkoutDifficulty)
    (ageF : Option AgeGroup) : List WorkoutView :=
  ((db.workouts.filter fun w =>
      w.is_active && matchesFilter levelF w.learning_level &&
      matchesFilter typeF w.workout_type && matchesFilter diffF w.difficulty &&
      matchesFilter ageF w.age_group).take 100).map workoutSummary

/-- `start_workout_attempt` (server.py:988-1022). -/
def startWorkoutAttempt (db : DB) (studentId : String) (role : UserRole)
    (workoutId : String) (now : Nat) (freshId : String) :
    Except ApiError (String × DB) :=
  if role ≠ .student then
    .error (.forbidden "Only students can attempt workouts")
  else
    match findActiveWorkout db workoutId with
    | none => .error (.notFound "Workout not found")
    | some _ =>
        let a : Attempt :=
          { id := freshId
            student_id := studentId
            workout_id := workoutId
            started_at := now
            completed_at := none
            student_answer := none
            is_correct := none
            time_spent_minutes := 0
            hints_used := 0
            attempts_count := 1
            score := none }
        .ok (freshId, { db with attempts := db.attempts ++ [a] })

/-- Response body of `get_workout_progress` (server.py:904-908). -/
structure ProgressResponse where
  progress_by_type : List ProgressRecord
  recent_attempts : List Attempt
  total_attempts : Nat
deriving DecidableEq, Repr

/-- Mongo `.sort("started_at", -1)`: stable sort, newest first. -/
def sortByStartedDesc (l : List Attempt) : List Attempt :=
  l.mergeSort fun a b => decide (b.started_at ≤ a.started_at)

/-- `get_workout_progress` (server.py:879-908): the student's progress
records (first 100), the 10 most recent attempts, and `total_attempts`
set to the length of that recent list. -/
def getWorkoutProgress (db : DB) (studentId : String) (role : UserRole) :
    Except ApiError ProgressResponse :=
  if role ≠ .student then
    .error (.forbidden "Only students can view workout progress")
  else
    let progress :=
      (db.progress.filter fun p => decide (p.student_id = studentId)).take 100
    let recent :=
      (sortByStartedDesc (db.attempts.filter fun a =>
        decide (a.student_id = studentId))).take 10
    .ok { progress_by_type := progress
          recent_attempts := recent
          total_attempts := recent.length }

/-- Whether a payload is a keyed container (a JSON object / Python dict). -/
def JValue.isObject : JValue → Bool
  | .obj _ => true
  | _ => false

/-- Comparison rule as the specification words it (§4.2 step 1): compare
the values under the `answer` key when both payloads are keyed
containers, otherwise the payloads themselves. -/
def specCorrect (submitted solution : JValue) : Prop :=
  match submitted, solution with
  | .obj a, .obj b => dictGet a "answer" = dictGet b "answer"
  | a, b => a = b

/-- Scoring rule as the specification words it (§4.2 steps 2-4):
`base = 100 if correct else 0`, `penalty = hints_used * 10`,
`score = max(0, base - penalty)`. -/
def specScore (correct : Bool) (hintsUsed : Int) : Int :=
  max 0 ((if correct then 100 else 0) - hintsUsed * 10)

theorem gradeAnswer_eq_true_iff (a b : JValue) :
    gradeAnswer a b = true ↔ specCorrect a b := by
  cases a <;> cases b <;> simp [gradeAnswer, specCorrect]

/-- Success branch of `submit_workout_attempt`, spelled out: once the
open attempt, the workout, its solution and a numeric hint count are
found, the handler grades, closes the attempt, aggregates progress and
answers. -/
theorem submitAttemptCore_ok (db : DB) (sid aid : String) (ans : JValue)
    (hints : Int) (now : Nat) (fid : String) (att : Attempt) (w : Workout)
    (sol : JValue)
    (hatt : findOpenAttempt db aid sid = some att)
    (hw : findWorkoutById db att.workout_id = some w)
    (hsol : w.solution = some sol) :
    submitAttemptCore db sid .student aid ans (some hints) now fid =
      .ok ({ score := computeScore (gradeAnswer ans sol) hints
             is_correct := gradeAnswer ans sol
             time_spent_minutes := pyInt (((now : Rat) - (att.started_at : Rat)) / 60)
             solution := if gradeAnswer ans sol then none else some sol
             feedback := if gradeAnswer ans sol then "Excellent work!"
               else "Keep practicing! Check the solution to understand better." },
           updateWorkoutProgress
             { db with
                 attempts := updateFirst (fun a => decide (a.id = aid))
                     (fun a => closeAttempt a now ans (gradeAnswer ans sol)
                       (pyInt (((now : Rat) - (att.started_at : Rat)) / 60)) hints
                       (computeScore (gradeAnswer ans sol) hints)) db.attempts }
             sid w (computeScore (gradeAnswer ans sol) hints)
             (((now : Rat) - (att.started_at : Rat)) / 60) (gradeAnswer ans sol) now fid) := by
  simp [submitAttemptCore, hatt, hw, hsol]

/-- `update_workout_progress` only writes the progress collection. -/
theorem updateWorkoutProgress_attempts (db : DB) (sid : String) (w : Workout)
    (score : Int) (t : Rat) (corr : Bool) (now : Nat) (fid : String) :
    (updateWorkoutProgress db sid w score t corr now fid).attempts = db.attempts := by
  unfold updateWorkoutProgress
  cases findProgress db sid w.workout_type w.difficulty w.learning_level <;> rfl

/-- Sample workout fixture: solution `{"answer": 9}`. -/
def exWorkout : Workout :=
  { id := "w1"
    workout_type := .pattern_recognition
    difficulty := .beginner
    learning_level := .foundation
    age_group := .foundation
    solution := some (.obj [("answer", .num 9)])
    is_active := true }

/-- Open attempt fixture for student `s1` on workout `w1`, started at
epoch second 0. -/
def exAttempt : Attempt :=
  { id := "a1"
    student_id := "s1"
    workout_id := "w1"
    started_at := 0
    completed_at := none
    student_answer := none
    is_correct := none
    time_spent_minutes := 0
    hints_used := 0
    attempts_count := 1
    score := none }

/-- Database fixture: one workout, one open attempt, no progress. -/
def exDB : DB := { workouts := [exWorkout], attempts := [exAttempt], progress := [] }

/-- Submission body fixture: correct answer with one hint used. -/
def exBody : JValue :=
  .obj [("answer", .obj [("answer", .num 9)]), ("hints_used", .num 1)]

/-- C1: for every submitted answer payload and stored solution payload,
`submit_workout_attempt` decides correctness by comparing the `answer`
keys when both are keyed containers and by exact payload equality
otherwise, and scores `max(0, (100 if correct else 0) - hints_used*10)`. -/
theorem submit_grading_matches_spec (db : DB) (sid aid : String)
    (fields : List (String × JValue)) (att : Attempt) (w : Workout)
    (sol : JValue) (hints : Int) (now : Nat) (fid : String)
    (hatt : findOpenAttempt db aid sid = some att)
    (hw : findWorkoutById db att.workout_id = some w)
    (hsol : w.solution = some sol)
    (hh : extractHints fields = some hints) :
    ∃ res db2,
      submitAttemptEndpoint db sid .student aid (.obj fields) now fid = .ok (res, db2) ∧
      (res.is_correct = true ↔ specCorrect (extractAnswer fields) sol) ∧
      res.score = specScore res.is_correct hints := by
  rw [show submitAttemptEndpoint db sid .student aid (.obj fields) now fid =
        submitAttemptCore db sid .student aid (extractAnswer fields)
          (extractHints fields) now fid from rfl, hh,
      submitAttemptCore_ok db sid aid (extractAnswer fields) hints now fid att w sol hatt hw hsol]
  exact ⟨_, _, rfl, gradeAnswer_eq_true_iff _ _, rfl⟩

/-- C1 witness: correct `{"answer": 9}` submission with one hint against
solution `{"answer": 9}` on the fixture database. -/
theorem submit_grading_matches_spec_witness :
    ∃ res db2,
      submitAttemptEndpoint exDB "s1" .student "a1"
        (JValue.obj [("answer", JValue.obj [("answer", JValue.num 9)]), ("hints_used", JValue.num 1)])
        210 "p1" = .ok (res, db2) ∧
      (res.is_correct = true ↔
        specCorrect (extractAnswer
          [("answer", JValue.obj [("answer", JValue.num 9)]), ("hints_used", JValue.num 1)])
          (JValue.obj [("answer", JValue.num 9)])) ∧
      res.score = specScore res.is_correct 1 :=
  submit_grading_matches_spec exDB "s1" "a1"
    [("answer", JValue.obj [("answer", JValue.num 9)]), ("hints_used", JValue.num 1)]
    exAttempt exWorkout (JValue.obj [("answer", JValue.num 9)]) 1 210 "p1"
    (by decide) (by decide) (by decide) (by decide)

/-- When all ids in a list are distinct, looking an element up by its own
id finds exactly it. -/
theorem find?_key_eq_of_nodup {α β : Type} [DecidableEq β] (f : α → β) :
    ∀ (l : List α) (p : α), (l.map f).Nodup → p ∈ l →
      l.find? (fun x => decide (f x = f p)) = some p
  | [], p, _, hp => absurd hp (List.not_mem_nil p)
  | x :: l, p, hnd, hp => by
      rcases List.mem_cons.mp hp with h | h
      · subst h
        exact List.find?_cons_of_pos l (by simp)
      · have hx : ¬ f x = f p := by
          intro he
          exact (List.nodup_cons.mp hnd).1 (he ▸ List.mem_map_of_mem f h)
        rw [List.find?_cons_of_neg l (by simp [hx])]
        exact find?_key_eq_of_nodup f l p (List.nodup_cons.mp hnd).2 h

/-- `update_one` on the first match of a query `q`, keyed through an
id-equality rewrite, still answers the query `q` with the updated
element when ids are distinct and the update preserves `q`. -/
theorem find?_updateFirst_of_nodup {α β : Type} [DecidableEq β] (f : α → β)
    (q : α → Bool) (u : α → α) (hq : ∀ x, q (u x) = q x) :
    ∀ (l : List α) (p : α), (l.map f).Nodup → l.find? q = some p →
      (updateFirst (fun x => decide (f x = f p)) u l).find? q = some (u p)
  | [], p, _, hfind => by simp [List.find?] at hfind
  | x :: l, p, hnd, hfind => by
      rcases hqx : q x with _ | _
      · rw [List.find?_cons_of_neg l (by simp [hqx])] at hfind
        have hp : p ∈ l := List.mem_of_find?_eq_some hfind
        have hx : ¬ f x = f p := by
          intro he
          exact (List.nodup_cons.mp hnd).1 (he ▸ List.mem_map_of_mem f hp)
        rw [updateFirst, if_neg (by simp [hx])]
        rw [List.find?_cons_of_neg _ (by simp [hqx])]
        exact find?_updateFirst_of_nodup f q u hq l p (List.nodup_cons.mp hnd).2 hfind
      · rw [List.find?_cons_of_pos l (by simp [hqx])] at hfind
        injection hfind with hxp
        subst hxp
        rw [updateFirst, if_pos (by simp)]
        exact List.find?_cons_of_pos _ (by simp [hq, hqx])

/-- A search that fails on the first list continues in the second. -/
theorem find?_append_of_none {α : Type} (q : α → Bool) :
    ∀ (l₁ l₂ : List α), l₁.find? q = none → (l₁ ++ l₂).find? q = l₂.find? q
  | [], _, _ => rfl
  | x :: l₁, l₂, h => by
      rcases hqx : q x with _ | _
      · rw [List.find?_cons_of_neg l₁ (by simp [hqx])] at h
        rw [List.cons_append, List.find?_cons_of_neg _ (by simp [hqx])]
        exact find?_append_of_none q l₁ l₂ h
      · rw [List.find?_cons_of_pos l₁ (by simp [hqx])] at h
        exact absurd h (by simp)

/-- Closing the (unique) attempt with a given id leaves no open attempt
with that id. -/
theorem no_open_after_close (aid sid : String) (now : Nat) (ans : JValue)
    (corr : Bool) (tmin hints sc : Int) :
    ∀ l : List Attempt, (l.map Attempt.id).Nodup →
      (updateFirst (fun a => decide (a.id = aid))
        (fun a => closeAttempt a now ans corr tmin hints (sc))
        l).find?
        (fun a => decide (a.id = aid ∧ a.student_id = sid ∧ a.completed_at = none)) = none
  | [], _ => rfl
  | x :: l, hnd => by
      rcases hx : decide (x.id = aid) with _ | _
      · rw [updateFirst, if_neg (by simp [hx])]
        have hxq : ¬ (x.id = aid ∧ x.student_id = sid ∧ x.completed_at = none) := by
          simp only [decide_eq_false_iff_not] at hx
          exact fun hc => hx hc.1
        rw [List.find?_cons_of_neg _ (by simp [hxq])]
        exact no_open_after_close aid sid now ans corr tmin hints sc l
          (List.nodup_cons.mp hnd).2
      · rw [updateFirst, if_pos hx]
        have hclosed : ¬ ((closeAttempt x now ans corr tmin hints sc).id = aid ∧
            (closeAttempt x now ans corr tmin hints sc).student_id = sid ∧
            (closeAttempt x now ans corr tmin hints sc).completed_at = none) := by
          simp [closeAttempt]
        rw [List.find?_cons_of_neg _ (by simp [hclosed])]
        rw [List.find?_eq_none]
        intro a ha
        have haid : a.id ≠ aid := by
          intro he
          have hxeq : x.id = aid := of_decide_eq_true hx
          have hmem : a.id ∈ l.map Attempt.id := List.mem_map_of_mem Attempt.id ha
          rw [he, ← hxeq] at hmem
          exact (List.nodup_cons.mp hnd).1 hmem
        simp [haid]

/-- Fixture progress record: one prior completed attempt, average 80. -/
def exProgress : ProgressRecord :=
  { id := "p1"
    student_id := "s1"
    workout_type := .pattern_recognition
    difficulty := .beginner
    learning_level := .foundation
    total_attempts := 1
    successful_attempts := 1
    average_score := 80
    average_time_minutes := 4
    improvement_rate := 0
    last_attempt := some 0
    mastery_level := 80 }

/-- Database fixture with one existing progress record. -/
def exDB2 : DB :=
  { workouts := [exWorkout], attempts := [exAttempt], progress := [exProgress] }

/-- C2: with an existing ProgressRecord for the key, a completed attempt
with score s updates it to `new_total = total + 1`,
`new_successful = successful + [correct]`,
`new_avg = (avg * total + s) / new_total` (same for time),
`improvement_rate = max(0, new_avg - avg)` and
`mastery_level = min(new_avg, 100)`; in particular
`{total_attempts: 1, average_score: 80}` receiving score 60 becomes
`{total_attempts: 2, average_score: 70, improvement_rate: 0}`. -/
theorem progress_update_path :
    (∀ (db : DB) (sid : String) (w : Workout) (score : Int) (t : Rat) (corr : Bool)
       (now : Nat) (fid : String) (p : ProgressRecord),
       findProgress db sid w.workout_type w.difficulty w.learning_level = some p →
       (db.progress.map ProgressRecord.id).Nodup →
       ∃ r, findProgress (updateWorkoutProgress db sid w score t corr now fid) sid
           w.workout_type w.difficulty w.learning_level = some r ∧
         r.total_attempts = p.total_attempts + 1 ∧
         r.successful_attempts = p.successful_attempts + (if corr then 1 else 0) ∧
         r.average_score =
           (p.average_score * p.total_attempts + (score : Rat)) / ((p.total_attempts : Rat) + 1) ∧
         r.average_time_minutes =
           (p.average_time_minutes * p.total_attempts + t) / ((p.total_attempts : Rat) + 1) ∧
         r.improvement_rate = max 0 (r.average_score - p.average_score) ∧
         r.mastery_level = min r.average_score 100 ∧
         r.last_attempt = some now) ∧
    (∃ r, findProgress (updateWorkoutProgress exDB2 "s1" exWorkout 60 5 true 9 "p2") "s1"
        .pattern_recognition .beginner .foundation = some r ∧
      r.total_attempts = 2 ∧ r.average_score = 70 ∧ r.improvement_rate = 0) := by
  have general : ∀ (db : DB) (sid : String) (w : Workout) (score : Int) (t : Rat) (corr : Bool)
      (now : Nat) (fid : String) (p : ProgressRecord),
      findProgress db sid w.workout_type w.difficulty w.learning_level = some p →
      (db.progress.map ProgressRecord.id).Nodup →
      ∃ r, findProgress (updateWorkoutProgress db sid w score t corr now fid) sid
          w.workout_type w.difficulty w.learning_level = some r ∧
        r.total_attempts = p.total_attempts + 1 ∧
        r.successful_attempts = p.successful_attempts + (if corr then 1 else 0) ∧
        r.average_score =
          (p.average_score * p.total_attempts + (score : Rat)) / ((p.total_attempts : Rat) + 1) ∧
        r.average_time_minutes =
          (p.average_time_minutes * p.total_attempts + t) / ((p.total_attempts : Rat) + 1) ∧
        r.improvement_rate = max 0 (r.average_score - p.average_score) ∧
        r.mastery_level = min r.average_score 100 ∧
        r.last_attempt = some now := by
    intro db sid w score t corr now fid p hp hnd
    have hfound := find?_updateFirst_of_nodup ProgressRecord.id
      (fun q => decide (q.student_id = sid ∧ q.workout_type = w.workout_type ∧
        q.difficulty = w.difficulty ∧ q.learning_level = w.learning_level))
      (fun r => applyProgressUpdate r (score : Rat) t corr now)
      (by intro x; simp [applyProgressUpdate]) db.progress p hnd hp
    refine ⟨applyProgressUpdate p (score : Rat) t corr now, ?_, ?_, ?_, ?_, ?_, ?_, ?_, ?_⟩
    · show (updateWorkoutProgress db sid w score t corr now fid).progress.find? _ = _
      rw [updateWorkoutProgress, hp]
      exact hfound
    · simp [applyProgressUpdate]
    · simp [applyProgressUpdate]
    · simp [applyProgressUpdate]
    · simp [applyProgressUpdate]
    · simp [applyProgressUpdate]
    · simp [applyProgressUpdate]
    · simp [applyProgressUpdate]
  refine ⟨general, ?_⟩
  obtain ⟨r, hr, h1, hsucc, havg, htime, himp, hmast, hlast⟩ :=
    general exDB2 "s1" exWorkout 60 5 true 9 "p2" exProgress (by decide) (by decide)
  refine ⟨r, hr, h1, ?_, ?_⟩
  · rw [havg]
    norm_num [exProgress]
  · rw [himp, havg]
    norm_num [exProgress, sup_eq_max, max_def]

/-- Submission body fixture: correct answer with two hints used. -/
def exBody80 : JValue :=
  .obj [("answer", .obj [("answer", .num 9)]), ("hints_used", .num 2)]

/-- C3 counterexample: submitting the fixture attempt 210 seconds
(3.5 minutes) after it started creates a ProgressRecord whose
`average_time_minutes` is the raw `7/2`, not the elapsed time in whole
minutes (which is `int(3.5) = 3`, the value the response's
`time_spent_minutes` field carries). -/
theorem create_path_whole_minutes_cex :
    (submitAttemptEndpoint exDB "s1" .student "a1" exBody 210 "p1").map
        (fun out => out.2.progress.map ProgressRecord.average_time_minutes) =
      .ok [(7 : Rat)/2] ∧
    ((7 : Rat)/2 ≠ 3) ∧
    (submitAttemptEndpoint exDB "s1" .student "a1" exBody 210 "p1").map
        (fun out => out.1.time_spent_minutes) = .ok 3 := by
  have h1 : submitAttemptEndpoint exDB "s1" .student "a1" exBody 210 "p1" =
      submitAttemptCore exDB "s1" .student "a1"
        (JValue.obj [("answer", JValue.num 9)]) (some 1) 210 "p1" := rfl
  have h2 := submitAttemptCore_ok exDB "s1" "a1" (JValue.obj [("answer", JValue.num 9)])
    1 210 "p1" exAttempt exWorkout (JValue.obj [("answer", JValue.num 9)])
    (by decide) (by decide) (by decide)
  have hg : gradeAnswer (JValue.obj [("answer", JValue.num 9)])
      (JValue.obj [("answer", JValue.num 9)]) = true := by decide
  rw [hg] at h2
  have hfindnone : ∀ atts : List Attempt,
      findProgress { exDB with attempts := atts } "s1" exWorkout.workout_type
        exWorkout.difficulty exWorkout.learning_level = none := fun _ => rfl
  refine ⟨?_, by norm_num, ?_⟩
  · rw [h1, h2]
    simp only [Except.map]
    rw [updateWorkoutProgress, hfindnone]
    simp [newProgressRecord, exDB, exAttempt]
    norm_num
  · rw [h1, h2]
    simp only [Except.map]
    norm_num [pyInt, exAttempt]

/-- C3 (amended): the first completed attempt for a key creates a
ProgressRecord with `total_attempts = 1`,
`successful_attempts = 1 if correct else 0`, `average_score = score`,
`average_time_minutes` equal to the raw elapsed minutes (possibly
fractional — whole-minute truncation applies only to the attempt's and
the response's `time_spent_minutes`), `mastery_level = min(score, 100)`
and `improvement_rate = 0`; a correct attempt scoring 80 submitted 180
seconds (3 whole minutes) after start yields
`average_score = 80, average_time_minutes = 3, mastery_level = 80`. -/
theorem progress_create_path :
    (∀ (db : DB) (sid : String) (w : Workout) (score : Int) (t : Rat) (corr : Bool)
       (now : Nat) (fid : String),
       findProgress db sid w.workout_type w.difficulty w.learning_level = none →
       ∃ r, findProgress (updateWorkoutProgress db sid w score t corr now fid) sid
           w.workout_type w.difficulty w.learning_level = some r ∧
         r.total_attempts = 1 ∧
         r.successful_attempts = (if corr then 1 else 0) ∧
         r.average_score = (score : Rat) ∧
         r.average_time_minutes = t ∧
         r.mastery_level = min (score : Rat) 100 ∧
         r.improvement_rate = 0 ∧
         r.last_attempt = some now) ∧
    ((submitAttemptEndpoint exDB "s1" .student "a1" exBody80 180 "p1").map
        (fun out => out.2.progress.map fun r =>
          (r.total_attempts, r.successful_attempts, r.average_score,
            r.average_time_minutes, r.mastery_level)) =
      .ok [(1, 1, (80 : Rat), (3 : Rat), (80 : Rat))]) := by
  constructor
  · intro db sid w score t corr now fid hnone
    refine ⟨newProgressRecord fid sid w score t corr now, ?_, ?_, ?_, ?_, ?_, ?_, ?_, ?_⟩
    · show (updateWorkoutProgress db sid w score t corr now fid).progress.find? _ = _
      rw [updateWorkoutProgress, hnone]
      rw [find?_append_of_none _ db.progress _ hnone]
      exact List.find?_cons_of_pos _ (by simp [newProgressRecord])
    · rfl
    · rfl
    · rfl
    · rfl
    · show ((min score 100 : Int) : Rat) = min (score : Rat) 100
      push_cast
      rfl
    · rfl
    · rfl
  · have h1 : submitAttemptEndpoint exDB "s1" .student "a1" exBody80 180 "p1" =
        submitAttemptCore exDB "s1" .student "a1"
          (JValue.obj [("answer", JValue.num 9)]) (some 2) 180 "p1" := rfl
    have h2 := submitAttemptCore_ok exDB "s1" "a1" (JValue.obj [("answer", JValue.num 9)])
      2 180 "p1" exAttempt exWorkout (JValue.obj [("answer", JValue.num 9)])
      (by decide) (by decide) (by decide)
    have hg : gradeAnswer (JValue.obj [("answer", JValue.num 9)])
        (JValue.obj [("answer", JValue.num 9)]) = true := by decide
    rw [hg] at h2
    have hfindnone : ∀ atts : List Attempt,
        findProgress { exDB with attempts := atts } "s1" exWorkout.workout_type
          exWorkout.difficulty exWorkout.learning_level = none := fun _ => rfl
    rw [h1, h2]
    simp only [Except.map]
    rw [updateWorkoutProgress, hfindnone]
    simp [newProgressRecord, exDB, exAttempt, computeScore]
    norm_num

/-- Equality of API outcomes is decidable (used to evaluate endpoint
runs on concrete fixtures). -/
def exceptDecEq {ε α : Type} [DecidableEq ε] [DecidableEq α] :
    (x y : Except ε α) → Decidable (x = y)
  | .error a, .error b =>
      if h : a = b then .isTrue (congrArg Except.error h)
      else .isFalse fun hh => h (Except.error.inj hh)
  | .ok a, .ok b =>
      if h : a = b then .isTrue (congrArg Except.ok h)
      else .isFalse fun hh => h (Except.ok.inj hh)
  | .error _, .ok _ => .isFalse fun hh => Except.noConfusion hh
  | .ok _, .error _ => .isFalse fun hh => Except.noConfusion hh

instance {ε α : Type} [DecidableEq ε] [DecidableEq α] : DecidableEq (Except ε α) :=
  exceptDecEq

/-- C4 counterexample: a correct submission carrying `hints_used = -1`
(the handler never validates the count) is scored
`max(0, 100 - (-1)*10) = 110`, outside the claimed `0 ≤ score ≤ 100`. -/
theorem score_range_cex :
    (submitAttemptEndpoint exDB "s1" .student "a1"
        (.obj [("answer", .obj [("answer", .num 9)]), ("hints_used", .num (-1))]) 60 "p1").map
      (fun out => (out.1.score, out.1.is_correct)) = .ok (110, true) ∧
    ¬ ((110 : Int) ≤ 100) := by
  exact ⟨by decide, by decide⟩

/-- C4 (amended): for every submission whose `hints_used` value is a
nonnegative integer, the computed score satisfies `0 ≤ score ≤ 100`. -/
theorem score_bounds (db : DB) (sid aid : String) (fields : List (String × JValue))
    (att : Attempt) (w : Workout) (sol : JValue) (hints : Int) (now : Nat) (fid : String)
    (hatt : findOpenAttempt db aid sid = some att)
    (hw : findWorkoutById db att.workout_id = some w)
    (hsol : w.solution = some sol)
    (hh : extractHints fields = some hints)
    (hpos : 0 ≤ hints) :
    ∃ res db2,
      submitAttemptEndpoint db sid .student aid (.obj fields) now fid = .ok (res, db2) ∧
      0 ≤ res.score ∧ res.score ≤ 100 := by
  rw [show submitAttemptEndpoint db sid .student aid (.obj fields) now fid =
        submitAttemptCore db sid .student aid (extractAnswer fields)
          (extractHints fields) now fid from rfl, hh,
      submitAttemptCore_ok db sid aid (extractAnswer fields) hints now fid att w sol hatt hw hsol]
  refine ⟨_, _, rfl, ?_, ?_⟩
  · show (0 : Int) ≤ computeScore (gradeAnswer (extractAnswer fields) sol) hints
    unfold computeScore
    exact le_max_left 0 _
  · show computeScore (gradeAnswer (extractAnswer fields) sol) hints ≤ 100
    unfold computeScore
    rcases gradeAnswer (extractAnswer fields) sol <;> simp <;> omega

/-- C4 witness: the amended bound at the fixture database with a correct
answer and `hints_used = 1`. -/
theorem score_bounds_witness :
    (0 : Int) ≤ 1 ∧
    ∃ res db2,
      submitAttemptEndpoint exDB "s1" .student "a1"
        (JValue.obj [("answer", JValue.obj [("answer", JValue.num 9)]),
          ("hints_used", JValue.num 1)]) 210 "p1" = .ok (res, db2) ∧
      0 ≤ res.score ∧ res.score ≤ 100 :=
  ⟨by decide,
   score_bounds exDB "s1" "a1"
     [("answer", JValue.obj [("answer", JValue.num 9)]), ("hints_used", JValue.num 1)]
     exAttempt exWorkout (JValue.obj [("answer", JValue.num 9)]) 1 210 "p1"
     (by decide) (by decide) (by decide) (by decide) (by decide)⟩

/-- C2 witness: the update path applied to the fixture record with an
incorrect score-50 attempt taking 2 minutes. -/
theorem progress_update_path_witness :
    ∃ r, findProgress (updateWorkoutProgress exDB2 "s1" exWorkout 50 2 false 11 "p3") "s1"
        exWorkout.workout_type exWorkout.difficulty exWorkout.learning_level = some r ∧
      r.total_attempts = exProgress.total_attempts + 1 ∧
      r.successful_attempts = exProgress.successful_attempts + (if false then 1 else 0) ∧
      r.average_score = (exProgress.average_score * exProgress.total_attempts +
        ((50 : Int) : Rat)) / ((exProgress.total_attempts : Rat) + 1) ∧
      r.average_time_minutes = (exProgress.average_time_minutes * exProgress.total_attempts +
        2) / ((exProgress.total_attempts : Rat) + 1) ∧
      r.improvement_rate = max 0 (r.average_score - exProgress.average_score) ∧
      r.mastery_level = min r.average_score 100 ∧
      r.last_attempt = some 11 :=
  progress_update_path.1 exDB2 "s1" exWorkout 50 2 false 11 "p3" exProgress
    (by decide) (by decide)

/-- C3 witness: the create path on a database with no progress record,
for an incorrect attempt scoring 0 after 5 rational minutes. -/
theorem progress_create_path_witness :
    ∃ r, findProgress (updateWorkoutProgress exDB "s1" exWorkout 0 5 false 7 "p4") "s1"
        exWorkout.workout_type exWorkout.difficulty exWorkout.learning_level = some r ∧
      r.total_attempts = 1 ∧
      r.successful_attempts = (if false then 1 else 0) ∧
      r.average_score = ((0 : Int) : Rat) ∧
      r.average_time_minutes = 5 ∧
      r.mastery_level = min ((0 : Int) : Rat) 100 ∧
      r.improvement_rate = 0 ∧
      r.last_attempt = some 7 :=
  progress_create_path.1 exDB "s1" exWorkout 0 5 false 7 "p4" (by decide)

/-- C5: with distinct attempt ids, a first submission succeeds and
closes the attempt (stamping its completion time), and any second
submission to the same attempt id by the same learner fails with the
NotFound error, because the lookup requires attempt id + learner id +
not-yet-completed. -/
theorem attempt_one_shot (db : DB) (sid aid : String) (fields : List (String × JValue))
    (att : Attempt) (w : Workout) (sol : JValue) (hints : Int) (now : Nat) (fid : String)
    (hnodup : (db.attempts.map Attempt.id).Nodup)
    (hatt : findOpenAttempt db aid sid = some att)
    (hw : findWorkoutById db att.workout_id = some w)
    (hsol : w.solution = some sol)
    (hh : extractHints fields = some hints) :
    ∃ res db2,
      submitAttemptEndpoint db sid .student aid (.obj fields) now fid = .ok (res, db2) ∧
      (∃ a2, db2.attempts.find? (fun a => decide (a.id = aid)) = some a2 ∧
        a2.completed_at = some now) ∧
      findOpenAttempt db2 aid sid = none ∧
      (∀ (fields2 : List (String × JValue)) (now2 : Nat) (fid2 : String),
        submitAttemptEndpoint db2 sid .student aid (.obj fields2) now2 fid2 =
          .error (.notFound "Active attempt not found")) := by
  have hatt' : db.attempts.find? (fun a =>
      decide (a.id = aid ∧ a.student_id = sid ∧ a.completed_at = none)) = some att := hatt
  have hmem : att ∈ db.attempts := List.mem_of_find?_eq_some hatt'
  have hq := List.find?_some hatt'
  simp only [decide_eq_true_eq] at hq
  obtain ⟨haid, hsid, hopen⟩ := hq
  subst haid
  rw [show submitAttemptEndpoint db sid .student att.id (.obj fields) now fid =
        submitAttemptCore db sid .student att.id (extractAnswer fields)
          (extractHints fields) now fid from rfl, hh,
      submitAttemptCore_ok db sid att.id (extractAnswer fields) hints now fid att w sol
        hatt hw hsol]
  have hfid : db.attempts.find? (fun a => decide (a.id = att.id)) = some att :=
    find?_key_eq_of_nodup Attempt.id db.attempts att hnodup hmem
  have hclosed : findOpenAttempt
      (updateWorkoutProgress
        { db with
            attempts := updateFirst (fun a => decide (a.id = att.id))
                (fun a => closeAttempt a now (extractAnswer fields)
                  (gradeAnswer (extractAnswer fields) sol)
                  (pyInt (((now : Rat) - (att.started_at : Rat)) / 60)) hints
                  (computeScore (gradeAnswer (extractAnswer fields) sol) hints)) db.attempts }
        sid w (computeScore (gradeAnswer (extractAnswer fields) sol) hints)
        (((now : Rat) - (att.started_at : Rat)) / 60)
        (gradeAnswer (extractAnswer fields) sol) now fid) att.id sid = none := by
    unfold findOpenAttempt
    rw [updateWorkoutProgress_attempts]
    exact no_open_after_close att.id sid now (extractAnswer fields)
      (gradeAnswer (extractAnswer fields) sol)
      (pyInt (((now : Rat) - (att.started_at : Rat)) / 60)) hints
      (computeScore (gradeAnswer (extractAnswer fields) sol) hints)
      db.attempts hnodup
  refine ⟨_, _, rfl, ?_, ?_, ?_⟩
  · rw [show ∀ dbx : DB, (updateWorkoutProgress dbx sid w
        (computeScore (gradeAnswer (extractAnswer fields) sol) hints)
        (((now : Rat) - (att.started_at : Rat)) / 60)
        (gradeAnswer (extractAnswer fields) sol) now fid).attempts = dbx.attempts from
      fun dbx => updateWorkoutProgress_attempts dbx sid w _ _ _ now fid]
    exact ⟨_, find?_updateFirst_of_nodup Attempt.id _ _
      (by intro x; simp [closeAttempt]) db.attempts att hnodup hfid, rfl⟩
  · exact hclosed
  · intro fields2 now2 fid2
    show submitAttemptCore _ sid .student att.id (extractAnswer fields2)
      (extractHints fields2) now2 fid2 = _
    simp [submitAttemptCore, hclosed]

/-- C5 witness: a correct submission to the fixture attempt, then any
resubmission to the same id. -/
theorem attempt_one_shot_witness :
    ∃ res db2,
      submitAttemptEndpoint exDB "s1" .student "a1"
        (JValue.obj [("answer", JValue.obj [("answer", JValue.num 9)]),
          ("hints_used", JValue.num 1)]) 210 "p1" = .ok (res, db2) ∧
      (∃ a2, db2.attempts.find? (fun a => decide (a.id = "a1")) = some a2 ∧
        a2.completed_at = some 210) ∧
      findOpenAttempt db2 "a1" "s1" = none ∧
      (∀ (fields2 : List (String × JValue)) (now2 : Nat) (fid2 : String),
        submitAttemptEndpoint db2 "s1" .student "a1" (.obj fields2) now2 fid2 =
          .error (.notFound "Active attempt not found")) :=
  attempt_one_shot exDB "s1" "a1"
    [("answer", JValue.obj [("answer", JValue.num 9)]), ("hints_used", JValue.num 1)]
    exAttempt exWorkout (JValue.obj [("answer", JValue.num 9)]) 1 210 "p1"
    (by decide) (by decide) (by decide) (by decide) (by decide)

/-- C6: learner-role callers never receive the solution from workout
lookups or listings; instructor/admin lookups always include it when
present; the submit response carries the solution exactly when the
submission was incorrect. -/
theorem solution_visibility :
    (∀ (db : DB) (wid : String) (v : WorkoutView),
       getWorkout db wid .student = .ok v → v.solution = none) ∧
    (∀ (db : DB) (wid : String) (role : UserRole) (v : WorkoutView),
       role ≠ .student → getWorkout db wid role = .ok v →
       ∃ w, findActiveWorkout db wid = some w ∧ v.solution = w.solution) ∧
    (∀ (db : DB) (lf : Option LearningLevel) (tf : Option WorkoutType)
       (df : Option WorkoutDifficulty) (af : Option AgeGroup) (v : WorkoutView),
       v ∈ getWorkouts db lf tf df af → v.solution = none) ∧
    (∀ (db : DB) (sid aid : String) (ans : JValue) (hints : Int) (now : Nat) (fid : String)
       (att : Attempt) (w : Workout) (sol : JValue),
       findOpenAttempt db aid sid = some att →
       findWorkoutById db att.workout_id = some w →
       w.solution = some sol →
       ∃ res db2, submitAttemptCore db sid .student aid ans (some hints) now fid =
           .ok (res, db2) ∧
         (res.is_correct = true → res.solution = none) ∧
         (res.is_correct = false → res.solution = some sol)) := by
  refine ⟨?_, ?_, ?_, ?_⟩
  · intro db wid v hv
    unfold getWorkout at hv
    cases hfind : findActiveWorkout db wid with
    | none => rw [hfind] at hv; exact absurd hv (by simp)
    | some w =>
        rw [hfind] at hv
        injection hv with hv
        rw [← hv]
        simp [workoutViewFor]
  · intro db wid role v hrole hv
    unfold getWorkout at hv
    cases hfind : findActiveWorkout db wid with
    | none => rw [hfind] at hv; exact absurd hv (by simp)
    | some w =>
        rw [hfind] at hv
        injection hv with hv
        rw [← hv]
        exact ⟨w, rfl, by simp [workoutViewFor, hrole]⟩
  · intro db lf tf df af v hv
    unfold getWorkouts at hv
    obtain ⟨w, hw, hmap⟩ := List.mem_map.mp hv
    rw [← hmap]
    rfl
  · intro db sid aid ans hints now fid att w sol hatt hw hsol
    rw [submitAttemptCore_ok db sid aid ans hints now fid att w sol hatt hw hsol]
    refine ⟨_, _, rfl, ?_, ?_⟩
    · intro hc
      show (if gradeAnswer ans sol then none else some sol) = none
      rw [show gradeAnswer ans sol = true from hc]
      rfl
    · intro hc
      show (if gradeAnswer ans sol then none else some sol) = some sol
      rw [show gradeAnswer ans sol = false from hc]
      rfl

/-- C6 witness: lookups of the fixture workout as student and teacher,
and an incorrect submission returning the solution. -/
theorem solution_visibility_witness :
    (∀ v : WorkoutView, getWorkout exDB "w1" .student = .ok v → v.solution = none) ∧
    (∃ w, findActiveWorkout exDB "w1" = some w ∧
      ∀ v : WorkoutView, getWorkout exDB "w1" .teacher = .ok v → v.solution = w.solution) ∧
    (∃ res db2, submitAttemptCore exDB "s1" .student "a1" (JValue.num 5) (some 0) 60 "p1" =
        .ok (res, db2) ∧
      (res.is_correct = true → res.solution = none) ∧
      (res.is_correct = false → res.solution = some (JValue.obj [("answer", JValue.num 9)]))) := by
  refine ⟨fun v hv => solution_visibility.1 exDB "w1" v hv, ?_, ?_⟩
  · obtain ⟨w, hfound, hsol⟩ := solution_visibility.2.1 exDB "w1" .teacher
      (workoutViewFor exWorkout .teacher) (by decide) (by decide)
    exact ⟨w, hfound, fun v hv => by
      have : v = workoutViewFor exWorkout .teacher := by
        have := hv.symm.trans (show getWorkout exDB "w1" .teacher =
          .ok (workoutViewFor exWorkout .teacher) from by decide)
        exact Except.ok.inj this
      rw [this, hsol]⟩
  · exact solution_visibility.2.2.2 exDB "s1" "a1" (JValue.num 5) 0 60 "p1"
      exAttempt exWorkout (JValue.obj [("answer", JValue.num 9)])
      (by decide) (by decide) (by decide)

/-- Folding `update_workout_progress` over a sequence of completed
attempts, each given as (score, elapsed minutes, correctness), for one
student and one workout. -/
def runProgressUpdates (db : DB) (sid : String) (w : Workout) (now : Nat) (fid : String) :
    List (Int × Rat × Bool) → DB
  | [] => db
  | x :: rest =>
      runProgressUpdates (updateWorkoutProgress db sid w x.1 x.2.1 x.2.2 now fid)
        sid w now fid rest

/-- Invariant of the aggregation loop: starting from a single matching
record, the progress collection stays a single record for the key whose
`average_score * total_attempts` accumulates the submitted scores. -/
theorem runProgress_invariant (sid : String) (w : Workout) (now : Nat) (fid : String) :
    ∀ (l : List (Int × Rat × Bool)) (ws : List Workout) (atts : List Attempt)
      (r : ProgressRecord),
      r.student_id = sid → r.workout_type = w.workout_type →
      r.difficulty = w.difficulty → r.learning_level = w.learning_level →
      ∃ r2, runProgressUpdates ⟨ws, atts, [r]⟩ sid w now fid l = ⟨ws, atts, [r2]⟩ ∧
        r2.student_id = sid ∧ r2.workout_type = w.workout_type ∧
        r2.difficulty = w.difficulty ∧ r2.learning_level = w.learning_level ∧
        r2.total_attempts = r.total_attempts + l.length ∧
        r2.average_score * (r2.total_attempts : Rat) =
          r.average_score * (r.total_attempts : Rat) +
            (l.map fun x => ((x.1 : Int) : Rat)).sum
  | [], ws, atts, r => by
      intro h1 h2 h3 h4
      exact ⟨r, rfl, h1, h2, h3, h4, by simp, by simp⟩
  | x :: rest, ws, atts, r => by
      intro h1 h2 h3 h4
      have hfind : findProgress ⟨ws, atts, [r]⟩ sid w.workout_type w.difficulty
          w.learning_level = some r := List.find?_cons_of_pos _ (by simp [h1, h2, h3, h4])
      have hstep : updateWorkoutProgress ⟨ws, atts, [r]⟩ sid w x.1 x.2.1 x.2.2 now fid =
          ⟨ws, atts, [applyProgressUpdate r ((x.1 : Int) : Rat) x.2.1 x.2.2 now]⟩ := by
        simp [updateWorkoutProgress, hfind, updateFirst]
      have hkey : (applyProgressUpdate r ((x.1 : Int) : Rat) x.2.1 x.2.2 now).student_id = sid ∧
          (applyProgressUpdate r ((x.1 : Int) : Rat) x.2.1 x.2.2 now).workout_type =
            w.workout_type ∧
          (applyProgressUpdate r ((x.1 : Int) : Rat) x.2.1 x.2.2 now).difficulty =
            w.difficulty ∧
          (applyProgressUpdate r ((x.1 : Int) : Rat) x.2.1 x.2.2 now).learning_level =
            w.learning_level := by
        simp [applyProgressUpdate, h1, h2, h3, h4]
      obtain ⟨r2, hrun, g1, g2, g3, g4, gtot, gavg⟩ :=
        runProgress_invariant sid w now fid rest ws atts
          (applyProgressUpdate r ((x.1 : Int) : Rat) x.2.1 x.2.2 now)
          hkey.1 hkey.2.1 hkey.2.2.1 hkey.2.2.2
      refine ⟨r2, ?_, g1, g2, g3, g4, ?_, ?_⟩
      · show runProgressUpdates (updateWorkoutProgress ⟨ws, atts, [r]⟩ sid w x.1 x.2.1 x.2.2
          now fid) sid w now fid rest = ⟨ws, atts, [r2]⟩
        rw [hstep]
        exact hrun
      · rw [gtot]
        show (applyProgressUpdate r ((x.1 : Int) : Rat) x.2.1 x.2.2 now).total_attempts +
          rest.length = r.total_attempts + (rest.length + 1)
        simp [applyProgressUpdate]
        omega
      · rw [gavg]
        have htot : ((applyProgressUpdate r ((x.1 : Int) : Rat) x.2.1 x.2.2 now).total_attempts
            : Rat) = (r.total_attempts : Rat) + 1 := by
          simp [applyProgressUpdate]
        have havg : (applyProgressUpdate r ((x.1 : Int) : Rat) x.2.1 x.2.2 now).average_score =
            (r.average_score * (r.total_attempts : Rat) + ((x.1 : Int) : Rat)) /
              ((r.total_attempts : Rat) + 1) := by
          simp [applyProgressUpdate]
        rw [htot, havg, div_mul_cancel₀ _ (by positivity : ((r.total_attempts : Rat) + 1) ≠ 0)]
        simp [List.sum_cons]
        ring

/-- C7: applying the incremental update for N completed attempts with
scores s₁..sₙ under one key, starting from no record for that key,
leaves `average_score` equal to the arithmetic mean of s₁..sₙ (exact
over the rationals modelling Python floats). -/
theorem incremental_average_is_batch_mean (ws : List Workout) (atts : List Attempt)
    (sid : String) (w : Workout) (now : Nat) (fid : String)
    (l : List (Int × Rat × Bool)) (hne : l ≠ []) :
    ∃ r, findProgress (runProgressUpdates ⟨ws, atts, []⟩ sid w now fid l) sid
        w.workout_type w.difficulty w.learning_level = some r ∧
      r.total_attempts = l.length ∧
      r.average_score = (l.map fun x => ((x.1 : Int) : Rat)).sum / (l.length : Rat) := by
  cases l with
  | nil => exact absurd rfl hne
  | cons x rest =>
      have hstep : updateWorkoutProgress ⟨ws, atts, []⟩ sid w x.1 x.2.1 x.2.2 now fid =
          ⟨ws, atts, [newProgressRecord fid sid w x.1 x.2.1 x.2.2 now]⟩ := by
        simp [updateWorkoutProgress, findProgress]
      obtain ⟨r2, hrun, g1, g2, g3, g4, gtot, gavg⟩ :=
        runProgress_invariant sid w now fid rest ws atts
          (newProgressRecord fid sid w x.1 x.2.1 x.2.2 now) rfl rfl rfl rfl
      have hfinal : runProgressUpdates ⟨ws, atts, []⟩ sid w now fid (x :: rest) =
          ⟨ws, atts, [r2]⟩ := by
        show runProgressUpdates (updateWorkoutProgress ⟨ws, atts, []⟩ sid w x.1 x.2.1 x.2.2
          now fid) sid w now fid rest = ⟨ws, atts, [r2]⟩
        rw [hstep]
        exact hrun
      have htot : r2.total_attempts = (x :: rest).length := by
        rw [gtot]
        show (newProgressRecord fid sid w x.1 x.2.1 x.2.2 now).total_attempts + rest.length =
          rest.length + 1
        simp [newProgressRecord]
        omega
      refine ⟨r2, ?_, htot, ?_⟩
      · rw [hfinal]
        exact List.find?_cons_of_pos _ (by simp [g1, g2, g3, g4])
      · have hsum : r2.average_score * (r2.total_attempts : Rat) =
            ((x :: rest).map fun y => ((y.1 : Int) : Rat)).sum := by
          rw [gavg]
          show (newProgressRecord fid sid w x.1 x.2.1 x.2.2 now).average_score *
              ((newProgressRecord fid sid w x.1 x.2.1 x.2.2 now).total_attempts : Rat) +
              (rest.map fun y => ((y.1 : Int) : Rat)).sum = _
          simp [newProgressRecord, List.sum_cons]
        have hne2 : ((x :: rest).length : Rat) ≠ 0 := by
          rw [List.length_cons]
          push_cast
          positivity
        rw [htot] at hsum
        rw [eq_div_iff hne2]
        exact hsum

/-- C7 witness: two completed attempts with scores 80 and 60. -/
theorem incremental_average_is_batch_mean_witness :
    ∃ r, findProgress (runProgressUpdates ⟨[exWorkout], [], []⟩ "s1" exWorkout 99 "p9"
        [((80 : Int), (3 : Rat), true), ((60 : Int), (2 : Rat), false)]) "s1"
        exWorkout.workout_type exWorkout.difficulty exWorkout.learning_level = some r ∧
      r.total_attempts =
        [((80 : Int), (3 : Rat), true), ((60 : Int), (2 : Rat), false)].length ∧
      r.average_score =
        ([((80 : Int), (3 : Rat), true), ((60 : Int), (2 : Rat), false)].map
          fun x => ((x.1 : Int) : Rat)).sum /
        (([((80 : Int), (3 : Rat), true), ((60 : Int), (2 : Rat), false)].length) : Rat) :=
  incremental_average_is_batch_mean [exWorkout] [] "s1" exWorkout 99 "p9"
    [((80 : Int), (3 : Rat), true), ((60 : Int), (2 : Rat), false)]
    (List.cons_ne_nil _ _)

/-- C8: a fully correct submission with at least 10 hints used is
answered with `score = 0` and `is_correct = true` at the same time —
both signals appear in the response. -/
theorem correct_with_ten_hints_scores_zero (db : DB) (sid aid : String)
    (fields : List (String × JValue)) (att : Attempt) (w : Workout) (sol : JValue)
    (hints : Int) (now : Nat) (fid : String)
    (hatt : findOpenAttempt db aid sid = some att)
    (hw : findWorkoutById db att.workout_id = some w)
    (hsol : w.solution = some sol)
    (hh : extractHints fields = some hints)
    (hcorr : gradeAnswer (extractAnswer fields) sol = true)
    (hmany : 10 ≤ hints) :
    ∃ res db2,
      submitAttemptEndpoint db sid .student aid (.obj fields) now fid = .ok (res, db2) ∧
      res.score = 0 ∧ res.is_correct = true := by
  rw [show submitAttemptEndpoint db sid .student aid (.obj fields) now fid =
        submitAttemptCore db sid .student aid (extractAnswer fields)
          (extractHints fields) now fid from rfl, hh,
      submitAttemptCore_ok db sid aid (extractAnswer fields) hints now fid att w sol
        hatt hw hsol]
  refine ⟨_, _, rfl, ?_, hcorr⟩
  show computeScore (gradeAnswer (extractAnswer fields) sol) hints = 0
  rw [hcorr]
  unfold computeScore
  simp only [if_true]
  omega

/-- C8 witness: a correct answer submitted with `hints_used = 10`. -/
theorem correct_with_ten_hints_scores_zero_witness :
    ∃ res db2,
      submitAttemptEndpoint exDB "s1" .student "a1"
        (JValue.obj [("answer", JValue.obj [("answer", JValue.num 9)]),
          ("hints_used", JValue.num 10)]) 210 "p1" = .ok (res, db2) ∧
      res.score = 0 ∧ res.is_correct = true :=
  correct_with_ten_hints_scores_zero exDB "s1" "a1"
    [("answer", JValue.obj [("answer", JValue.num 9)]), ("hints_used", JValue.num 10)]
    exAttempt exWorkout (JValue.obj [("answer", JValue.num 9)]) 10 210 "p1"
    (by decide) (by decide) (by decide) (by decide) (by decide) (by decide)

/-- C9 counterexample: a submission body that is a keyed container but
is missing both required fields (`answer` and `hints_used`) is not
rejected with a validation error — the handler grades it with the
defaults (`{}` and 0) and answers `score = 0, is_correct = false`. -/
theorem validation_missing_fields_cex :
    (submitAttemptEndpoint exDB "s1" .student "a1" (.obj []) 60 "p1").map
        (fun out => (out.1.score, out.1.is_correct)) = .ok (0, false) := by
  decide

/-- C9 (amended): only a submission body that is not a keyed container
fails with the client-facing validation error; a keyed container missing
the `answer` or `hints_used` field is graded anyway, with `{}` as the
answer and 0 as the hint count. -/
theorem validation_behavior :
    (∀ (db : DB) (sid : String) (role : UserRole) (aid : String) (body : JValue)
       (now : Nat) (fid : String), body.isObject = false →
       submitAttemptEndpoint db sid role aid body now fid = .error .validationFailure) ∧
    (∀ fields : List (String × JValue), lookupField fields "answer" = none →
       extractAnswer fields = .obj []) ∧
    (∀ fields : List (String × JValue), lookupField fields "hints_used" = none →
       extractHints fields = some 0) ∧
    (∀ (db : DB) (sid : String) (role : UserRole) (aid : String)
       (fields : List (String × JValue)) (now : Nat) (fid : String),
       submitAttemptEndpoint db sid role aid (.obj fields) now fid =
         submitAttemptCore db sid role aid (extractAnswer fields)
           (extractHints fields) now fid) := by
  refine ⟨?_, ?_, ?_, ?_⟩
  · intro db sid role aid body now fid hbody
    cases body <;> simp_all [JValue.isObject, submitAttemptEndpoint]
  · intro fields h
    unfold extractAnswer
    rw [h]
    rfl
  · intro fields h
    unfold extractHints
    rw [h]
  · intro db sid role aid fields now fid
    rfl

/-- C9 witness: a JSON array body is rejected with the validation
error. -/
theorem validation_behavior_witness :
    submitAttemptEndpoint exDB "s1" .student "a1" (.arr []) 60 "p1" =
      .error .validationFailure :=
  validation_behavior.1 exDB "s1" .student "a1" (.arr []) 60 "p1" (by decide)

/-- Twelve open attempts by student `s1` (lifetime count 12). -/
def exAttempts12 : List Attempt :=
  (List.range 12).map fun n =>
    { id := toString n
      student_id := "s1"
      workout_id := "w1"
      started_at := n
      completed_at := none
      student_answer := none
      is_correct := none
      time_spent_minutes := 0
      hints_used := 0
      attempts_count := 1
      score := none }

/-- Database fixture with 12 attempts for one learner. -/
def exDB10 : DB := { workouts := [exWorkout], attempts := exAttempts12, progress := [] }

/-- C10: `get_workout_progress` returns the learner's ProgressRecords
(all of them whenever the learner has at most the 100-record read cap,
which the engine's 72 possible keys guarantee) plus at most the 10 most
recent attempts, and its `total_attempts` field is the length of that
recent list — `min(lifetime, 10)` — not the lifetime attempt count: with
12 lifetime attempts it reports 10. -/
theorem progress_response_shape :
    (∀ (db : DB) (sid : String),
       (db.progress.filter fun p => decide (p.student_id = sid)).length ≤ 100 →
       ∃ resp, getWorkoutProgress db sid .student = .ok resp ∧
         resp.progress_by_type = db.progress.filter (fun p => decide (p.student_id = sid)) ∧
         resp.total_attempts = resp.recent_attempts.length ∧
         resp.total_attempts =
           min (db.attempts.filter fun a => decide (a.student_id = sid)).length 10 ∧
         resp.total_attempts ≤ 10) ∧
    ((getWorkoutProgress exDB10 "s1" .student).map ProgressResponse.total_attempts =
        .ok 10 ∧
      (exDB10.attempts.filter fun a => decide (a.student_id = "s1")).length = 12) := by
  have general : ∀ (db : DB) (sid : String),
      (db.progress.filter fun p => decide (p.student_id = sid)).length ≤ 100 →
      ∃ resp, getWorkoutProgress db sid .student = .ok resp ∧
        resp.progress_by_type = db.progress.filter (fun p => decide (p.student_id = sid)) ∧
        resp.total_attempts = resp.recent_attempts.length ∧
        resp.total_attempts =
          min (db.attempts.filter fun a => decide (a.student_id = sid)).length 10 ∧
        resp.total_attempts ≤ 10 := by
    intro db sid hle
    refine ⟨_, rfl, ?_, rfl, ?_, ?_⟩
    · exact List.take_of_length_le hle
    · show ((sortByStartedDesc (db.attempts.filter fun a =>
        decide (a.student_id = sid))).take 10).length = _
      rw [List.length_take, sortByStartedDesc, List.length_mergeSort]
      exact Nat.min_comm _ _
    · show ((sortByStartedDesc (db.attempts.filter fun a =>
        decide (a.student_id = sid))).take 10).length ≤ 10
      rw [List.length_take]
      exact Nat.min_le_left _ _
  refine ⟨general, ?_, by decide⟩
  obtain ⟨resp, hrun, hprog, htot1, htot2, hcap⟩ := general exDB10 "s1" (by decide)
  rw [hrun]
  simp only [Except.map]
  rw [htot2, show (exDB10.attempts.filter fun a =>
    decide (a.student_id = "s1")).length = 12 from by decide]
  rfl

/-- C10 witness: the response shape on the 12-attempt fixture. -/
theorem progress_response_shape_witness :
    ∃ resp, getWorkoutProgress exDB10 "s1" .student = .ok resp ∧
      resp.progress_by_type =
        exDB10.progress.filter (fun p => decide (p.student_id = "s1")) ∧
      resp.total_attempts = resp.recent_attempts.length ∧
      resp.total_attempts =
        min (exDB10.attempts.filter fun a => decide (a.student_id = "s1")).length 10 ∧
      resp.total_attempts ≤ 10 :=
  progress_response_shape.1 exDB10 "s1" (by decide)

end TecPlatform
